import Mathlib

set_option maxRecDepth 8000

/-! Shallow embedding of `Camera_cv.py` (class `Camera`) from the datarecorder
repository: the frame-acquisition and recording pipeline.  Times are modelled
as exact rationals (seconds since the epoch for `datetime` values); frames are
modelled by their shape (height, width, channel count), an abstract pixel
payload, and the list of text overlays burned into them.  External
collaborators (the cv2 capture device, the `VideoRecording` encoder, the Qt
signal machinery) enter as explicit inputs: each capture iteration receives a
`CaptureInput` describing what `capture.read()` and `cv2.cvtColor` did, and the
drain loop of `stop_saving` receives the sequences of queue depths and encoder
write counts it observes while the concurrent consumer runs.  Qt signal
emissions (`sig_raise_error`, `sig_set_timestamp`, `warnings.warn`) are
modelled as append-only logs in the camera state. -/

/-- A video frame: shape, abstract pixel payload, and the overlays that
`cv2.putText` has burned into it (text, x, y). -/
structure Frame where
  hgt : ℕ
  wid : ℕ
  channels : ℕ
  data : ℕ
  overlays : List (String × ℕ × ℕ)
deriving DecidableEq

/-- A `datetime` value: its epoch offset in seconds (exact rational) together
with its `strftime` rendering as produced by the external library. -/
structure Timestamp where
  secs : ℚ
  ymdhms : String
deriving DecidableEq

/-- The external events of one `grab_frame` iteration: whether
`capture.read()` succeeded (`flag`), whether `cv2.cvtColor` would succeed on
the delivered buffer (`convOk`; conversion always raises when no frame was
delivered), the abstract payload of the delivered frame, the wall-clock
`datetime.now()`, and the remote speed reading stringified for the optional
second overlay. -/
structure CaptureInput where
  flag : Bool
  convOk : Bool
  raw : ℕ
  ts : Timestamp
  speed : String
deriving DecidableEq

/-- The external `VideoRecording` handle, by the two observables the class
uses: whether `isOpened()` holds, and the framerate it was opened with. -/
structure Recording where
  opened : Bool
  framerate : ℚ
deriving DecidableEq

/-- The mutable state of a `Camera` object (the fields of `Camera_cv.py`
that the embedded methods read or write).  `errors`, `statuses` and
`warnings` log the emissions of `sig_raise_error`, `sig_set_timestamp`
and `warnings.warn` respectively.  `recordingThread` records whether the
consumer `QThread` was started, `sig_connected` whether `sig_new_frame`
is connected to `recording.write`. -/
structure Camera where
  width : ℕ
  height : ℕ
  framerate : ℚ
  color : Bool
  triggered : Bool
  remote : Bool
  saving : Bool
  continuous : Bool
  frame_dts : List ℚ
  recframes : List (Frame × String)
  dispframe : Option (Frame × Timestamp × ℚ)
  empty_frame : Frame
  recording : Option Recording
  recordingThread : Bool
  sig_connected : Bool
  errors : List String
  statuses : List String
  warnings : List String
deriving DecidableEq

/-- Lines 149-151: `frame_dts.append(dtime)` followed by a single `popleft`
when the deque exceeds 100 entries. -/
def recordSample (dts : List ℚ) (t : ℚ) : List ℚ :=
  let dts := dts ++ [t]
  if dts.length > 100 then dts.tail else dts

/-- Lines 152-156: the instantaneous frame rate computed from the updated
deque: `len(frame_dts) / dur if dur > 0 else 0` where
`dur = (frame_dts[-1] - frame_dts[0]).total_seconds()`, and 0 when the deque
holds fewer than two samples. -/
def currentRate (dts : List ℚ) : ℚ :=
  if dts.length > 1 then
    let dur := dts.getLastD 0 - dts.headD 0
    if dur > 0 then (dts.length : ℚ) / dur else 0
  else 0

/-- `matplotlib.dates.date2num`: days since the epoch, from epoch seconds. -/
def date2num (secs : ℚ) : ℚ := secs / 86400

/-- Left-pad a digit string with zeros to width 10. -/
def pad10 (s : String) : String :=
  String.mk (List.replicate (10 - s.length) (Char.ofNat 48)) ++ s

/-- Line 196: the fractional-day timestamp rendered with exactly 10 digits
after the decimal point and a trailing newline (the source formats the value
with a fixed-point 10-decimal format string).  Rounding is to nearest. -/
def format10 (q : ℚ) : String :=
  let n : ℤ := Int.floor (q * 10000000000 + 1 / 2)
  toString (n / 10000000000) ++ "." ++ pad10 (toString (n % 10000000000)) ++ "\n"

/-- Lines 202-206: `cv2.putText` burns `text` into the frame buffer in place
at the given position. -/
def write_to_frame (frm : Frame) (text : String) (wx wy : ℕ) : Frame :=
  { frm with overlays := frm.overlays ++ [(text, wx, wy)] }

/-- The frame produced by a successful `cv2.cvtColor` call in lines 160-165:
three channels under `brg2rgb` (color mode), one under `brg2grayscale`. -/
def convFrame (color : Bool) (hgt wid raw : ℕ) : Frame :=
  { hgt := hgt, wid := wid, channels := if color then 3 else 1
  , data := raw, overlays := [] }

/-- Lines 180-183: the timestamp overlay at 5 percent of width and height,
then, when the remote option is set, the speed overlay at 85 percent width
and 5 percent height. -/
def overlayAll (remote : Bool) (wid hgt : ℕ) (inp : CaptureInput) (f : Frame) : Frame :=
  let f := write_to_frame f inp.ts.ymdhms (wid * 5 / 100) (hgt * 5 / 100)
  if remote then
    write_to_frame f (inp.speed ++ " m/s") (wid * 85 / 100) (hgt * 5 / 100)
  else f

/-- The `(frame, formatted timestamp)` pair that line 197 appends to
`recframes` for a successfully converted capture, as a function of the
constant configuration fields. -/
def recEntry (color remote : Bool) (wid hgt : ℕ) (inp : CaptureInput) : Frame × String :=
  (overlayAll remote wid hgt inp (convFrame color hgt wid inp.raw),
   format10 (date2num inp.ts.secs))

/-- Warning emitted at line 186 when `capture.read` reports failure
(source wording, with its apostrophe elided). -/
def grabWarnMsg : String := "Couldnt grab frame from camera!"

/-- Lines 143-200, `grab_frame`: one capture iteration.  The rate window is
updated and the rate computed (148-156); conversion succeeds only when a
frame was actually delivered, otherwise the last good frame is substituted
(159-170); overlays are burned into the frame buffer in place, so
`empty_frame`, which aliases that buffer on both the success and the failure
path, ends up holding the overlaid frame (180-183); on read failure a warning
is emitted and the iteration ends with nothing published or enqueued
(185-187); otherwise the frame is published to `dispframe` (190-192) and,
while saving, appended to `recframes` with its fractional-day timestamp
(194-200).  Later in-place mutation of buffers shared across iterations is
not observable through the fields the claims inspect, so frames are
snapshotted per iteration. -/
def grab_frame (c : Camera) (inp : CaptureInput) : Camera :=
  let dts := recordSample c.frame_dts inp.ts.secs
  let fr := currentRate dts
  let ok := inp.flag && inp.convOk
  let base := if ok then convFrame c.color c.height c.width inp.raw else c.empty_frame
  let frame := overlayAll c.remote c.width c.height inp base
  let c1 := { c with frame_dts := dts, empty_frame := frame }
  if inp.flag = false then
    { c1 with warnings := c1.warnings ++ [grabWarnMsg] }
  else
    let c2 := { c1 with dispframe := some (frame, inp.ts, fr) }
    if c2.saving then
      { c2 with recframes := c2.recframes ++ [(frame, format10 (date2num inp.ts.secs))] }
    else c2

/-- Lines 118-123, `get_dispframe`: take the current display frame and clear
the slot. -/
def get_dispframe (c : Camera) : Option (Frame × Timestamp × ℚ) × Camera :=
  (c.dispframe, { c with dispframe := none })

/-- Lines 125-134, `get_recframe`: pop the front of `recframes`, or report
empty without touching the state. -/
def get_recframe (c : Camera) : Option (Frame × String) × Camera :=
  match c.recframes with
  | [] => (none, c)
  | x :: xs => (some x, { c with recframes := xs })

/-- Lines 136-141, `get_recframesize`: the current queue depth. -/
def get_recframesize (c : Camera) : ℕ := c.recframes.length

/-- The body of the `while self.is_recording(): self.grab_frame()` loop of
`start_capture` (lines 253-254), driven by the list of per-iteration
external inputs. -/
def capture_go : Camera → List CaptureInput → Camera
  | c, [] => c
  | c, inp :: rest => if c.continuous then capture_go (grab_frame c inp) rest else c

/-- Lines 250-254, `start_capture`: set `continuous` and run the loop. -/
def start_capture (c : Camera) (inputs : List CaptureInput) : Camera :=
  capture_go { c with continuous := true } inputs

/-- Lines 256-259, `stop_capture`: clear `continuous` under the mutex. -/
def stop_capture (c : Camera) : Camera :=
  { c with continuous := false }

/-- Lines 261-264, `start_saving`: set `saving` under the mutex. -/
def start_saving (c : Camera) : Camera :=
  { c with saving := true }

/-- Lines 62-64 of `__init__`: `empty_frame = np.zeros((height, width, 3))`,
then, when color mode is configured, reduced to its first channel plane. -/
def init_empty_frame (hgt wid : ℕ) (color : Bool) : Frame :=
  let f : Frame := { hgt := hgt, wid := wid, channels := 3, data := 0, overlays := [] }
  if color then { f with channels := 1 } else f

/-- The state of a freshly constructed `Camera` (the `__init__` fields;
`continuous` is first assigned only by `start_capture` and the stop methods
and is modelled as initially false). -/
def Camera.init (wid hgt : ℕ) (fr : ℚ) (color triggered remote : Bool) : Camera :=
  { width := wid, height := hgt, framerate := fr, color := color
  , triggered := triggered, remote := remote
  , saving := false, continuous := false
  , frame_dts := [], recframes := [], dispframe := none
  , empty_frame := init_empty_frame hgt wid color
  , recording := none, recordingThread := false, sig_connected := false
  , errors := [], statuses := [], warnings := [] }

/-- Error emitted at line 224 when the `VideoRecording` cannot be opened. -/
def recOpenErrMsg : String := "Video-recording could not be started."

/-- Lines 208-231, `new_recording`: when not triggered, try to read the real
rate out of the display slot (which clears the slot; reading an empty slot
raises and falls back to the configured rate).  Construct the
`VideoRecording` (whether it opens is decided by the external collaborator,
`opensOk`) and assign it to `self.recording` unconditionally.  If it is not
open, emit the error and return `false`; otherwise start the consumer thread
and connect `sig_new_frame` to `recording.write`. -/
def new_recording (c : Camera) (opensOk : Bool) (framerateArg : ℚ) : Camera × Bool :=
  let p :=
    if c.triggered = false then
      match c.dispframe with
      | some d => (d.2.2, { c with dispframe := none })
      | none => (c.framerate, { c with dispframe := none })
    else (framerateArg, c)
  let c := { p.2 with recording := some { opened := opensOk, framerate := p.1 } }
  if opensOk = false then
    ({ c with errors := c.errors ++ [recOpenErrMsg] }, false)
  else
    ({ c with recordingThread := true, sig_connected := true }, true)

/-- What the drain loop of `stop_saving` observes of its concurrent
environment: the queue depth seen by the i-th `get_recframesize` poll, the
encoder write count seen by the i-th `get_write_count` read (read 0 is the
one before the loop, read i+1 the one of loop iteration i, and the read
after the loop follows the last iteration), the `strftime` rendering of
`datetime.now()` at summary time, and a fuel bound on how many loop
iterations are unrolled. -/
structure DrainEnv where
  depth : ℕ → ℕ
  wc : ℕ → ℕ
  now : String
  fuel : ℕ

/-- The outcome of a completed `stop_saving`: the final camera state, the
number of drain-loop iterations executed, whether the stall abort fired, and
the summary line emitted through `sig_set_timestamp`. -/
structure StopOutcome where
  cam : Camera
  polls : ℕ
  aborted : Bool
  summary : String
deriving DecidableEq

/-- Message of the exception raised when `stop_saving` dereferences
`self.recording.write` with `self.recording = None` (line 270). -/
def attrErrMsg : String := "AttributeError: NoneType object has no attribute write"

/-- Message of the exception raised when `sig_new_frame.disconnect` is called
while the signal is not connected (line 270). -/
def typeErrMsg : String := "TypeError: disconnect failed, signal not connected"

/-- Result of `stop_saving`: an exception escaping the method, a drain loop
still running after `fuel` iterations, or normal completion. -/
inductive StopResult where
  | exn (msg : String)
  | running
  | done (out : StopOutcome)
deriving DecidableEq

/-- Lines 274-285, the drain loop of `stop_saving`: while the polled depth is
positive, increment `double_counter` exactly when the polled write count
equals `last` (the value captured once before the loop), abort with the
stall error once the counter reaches 10, and otherwise sleep and poll again.
`iters` counts the iterations already executed; the result is the total
number of iterations together with whether the stall abort fired. -/
def drainLoop (depth wc : ℕ → ℕ) (last : ℕ) : ℕ → ℕ → ℤ → Option (ℕ × Bool)
  | 0, _, _ => none
  | fuel + 1, iters, dc =>
    if 0 < depth iters then
      let dc := if last = wc iters then dc + 1 else dc
      if dc = 10 then some (iters + 1, true)
      else drainLoop depth wc last fuel (iters + 1) dc
    else some (iters, false)

/-- Lines 267-298, `stop_saving`: clear `saving` and disconnect the consumer
(raising when `recording` is `None` or the signal is not connected), capture
`last = recording.get_write_count()`, run the drain loop with
`double_counter = -1` and hardcoded `triggered_frames = 0`, emit the stall
error if the loop aborted, emit the completion summary
`now + tab + "All frames written: " + write_count + " of " + 0`, release the
recording and stop the consumer thread. -/
def stop_saving (c : Camera) (env : DrainEnv) : StopResult :=
  match c.recording with
  | none => .exn attrErrMsg
  | some _ =>
    if c.sig_connected = false then .exn typeErrMsg
    else
      let c := { c with saving := false, sig_connected := false }
      let last := env.wc 0
      match drainLoop env.depth (fun i => env.wc (i + 1)) last env.fuel 0 (-1) with
      | none => .running
      | some pr =>
        let c := if pr.2 then { c with errors := c.errors ++ ["Frames cannot be saved."] } else c
        let wcFinal := env.wc (pr.1 + 1)
        let summary := env.now ++ " \t " ++ "All frames written: "
            ++ toString wcFinal ++ " of " ++ toString (0 : ℕ)
        let c := { c with statuses := c.statuses ++ [summary],
                          recording := none, recordingThread := false }
        .done { cam := c, polls := pr.1, aborted := pr.2, summary := summary }

/-- Repeatedly call `get_recframe`, collecting the dequeued pairs in order;
`n` bounds the number of calls. -/
def readAll : ℕ → Camera → List (Frame × String) × Camera
  | 0, c => ([], c)
  | n + 1, c =>
    match get_recframe c with
    | (none, c1) => ([], c1)
    | (some x, c1) =>
      let p := readAll n c1
      (x :: p.1, p.2)

/-- The summary string projected out of a completed `stop_saving`. -/
def StopResult.summaryOf : StopResult → Option String
  | .done out => some out.summary
  | _ => none

/-- Poll count and abort flag projected out of a completed `stop_saving`. -/
def StopResult.pollsAborted : StopResult → Option (ℕ × Bool)
  | .done out => some (out.polls, out.aborted)
  | _ => none

/-- Error log of the final camera state of a completed `stop_saving`. -/
def StopResult.errorsOf : StopResult → List String
  | .done out => out.cam.errors
  | _ => []

/-- A freshly constructed camera in color mode, 640 x 480, 30 fps. -/
def colorCam : Camera := Camera.init 640 480 30 true false false

/-- A freshly constructed camera in grayscale mode. -/
def grayCam : Camera := Camera.init 640 480 30 false false false

/-- A freshly constructed idle camera (no session, nothing running). -/
def idleCam : Camera := grayCam

/-- An idle camera with an open recording session and the consumer
connected, as left by a successful `new_recording` plus `start_saving`. -/
def activeCam : Camera :=
  { idleCam with recording := some { opened := true, framerate := 30 },
                 recordingThread := true, sig_connected := true, saving := true }

/-- Drain environment of the five-frame scenario: the first poll sees 5
queued frames, the consumer writes them all during the sleep, the second
poll sees an empty queue, and every write-count read after the loop entry
reports 5. -/
def fiveFrameEnv : DrainEnv :=
  { depth := fun i => if i = 0 then 5 else 0
  , wc := fun i => if i = 0 then 0 else 5
  , now := "2020-01-02  03:04:05"
  , fuel := 10 }

/-- Drain environment of the stalled scenario: the queue never empties and
the write count never advances. -/
def stallEnv : DrainEnv :=
  { depth := fun _ => 1, wc := fun _ => 0, now := "2020-01-02  03:04:05", fuel := 30 }

/-- A trivial drain environment for exercising the exception paths. -/
def drainEnv0 : DrainEnv :=
  { depth := fun _ => 0, wc := fun _ => 0, now := "", fuel := 0 }

/-- A capture input whose read succeeds and whose conversion succeeds. -/
def okInput : CaptureInput :=
  { flag := true, convOk := true, raw := 7
  , ts := { secs := 0, ymdhms := "2020-01-01 00:00:00" }, speed := "0" }

/-- A capture input whose read succeeds but whose conversion fails. -/
def failConvInput : CaptureInput :=
  { flag := true, convOk := false, raw := 7
  , ts := { secs := 0, ymdhms := "2020-01-01 00:00:00" }, speed := "0" }

/-- A capture input whose device read reports failure. -/
def failReadInput : CaptureInput :=
  { flag := false, convOk := false, raw := 0
  , ts := { secs := 1, ymdhms := "2020-01-01 00:00:01" }, speed := "0" }

lemma grab_frame_frame_dts (c : Camera) (inp : CaptureInput) :
    (grab_frame c inp).frame_dts = recordSample c.frame_dts inp.ts.secs := by
  by_cases hf : inp.flag = false
  · simp [grab_frame, hf]
  · by_cases hs : c.saving = true <;> simp [grab_frame, hf, hs]

lemma grab_frame_const (c : Camera) (inp : CaptureInput) :
    (grab_frame c inp).width = c.width ∧ (grab_frame c inp).height = c.height ∧
    (grab_frame c inp).color = c.color ∧ (grab_frame c inp).remote = c.remote ∧
    (grab_frame c inp).saving = c.saving ∧ (grab_frame c inp).continuous = c.continuous ∧
    (grab_frame c inp).empty_frame =
      overlayAll c.remote c.width c.height inp
        (if inp.flag && inp.convOk then convFrame c.color c.height c.width inp.raw
         else c.empty_frame) := by
  by_cases hf : inp.flag = false
  · simp [grab_frame, hf]
  · by_cases hs : c.saving = true <;> simp [grab_frame, hf, hs]

/-- C1 (counterexample): fed exactly the two samples t = 0.0 and t = 1.0, the
rolling rate computation of `grab_frame` (lines 148-156) yields 2, not the
1.0 that the claimed formula (n-1)/elapsed gives. -/
theorem currentRate_two_samples_ne_one :
    currentRate (recordSample (recordSample [] 0) 1) = 2 ∧
    currentRate (recordSample (recordSample [] 0) 1) ≠ 1 := by
  have hrs : recordSample (recordSample [] 0) 1 = [(0 : ℚ), 1] := rfl
  have h2 : currentRate [(0 : ℚ), 1] = 2 := by
    show (if (2 : ℕ) > 1 then
            if (1 : ℚ) - 0 > 0 then ((2 : ℕ) : ℚ) / ((1 : ℚ) - 0) else 0
          else 0) = 2
    norm_num
  rw [hrs, h2]
  norm_num

/-- C1 (amended): the computed rate is 0 when fewer than 2 samples are in the
window or the elapsed duration is not positive, and otherwise equals
n / elapsed_seconds (not (n-1)/elapsed_seconds) where n is the number of
samples in the window; in particular, with exactly two samples at t = 0.0 and
t = 1.0 the rate equals 2.0. -/
theorem currentRate_spec (dts : List ℚ) :
    (dts.length < 2 → currentRate dts = 0) ∧
    (1 < dts.length → dts.getLastD 0 - dts.headD 0 ≤ 0 → currentRate dts = 0) ∧
    (1 < dts.length → 0 < dts.getLastD 0 - dts.headD 0 →
      currentRate dts = (dts.length : ℚ) / (dts.getLastD 0 - dts.headD 0)) := by
  simp only [currentRate]
  refine ⟨fun h => ?_, fun h1 h2 => ?_, fun h1 h2 => ?_⟩
  · rw [if_neg (by omega)]
  · rw [if_pos (by omega), if_neg (by exact not_lt.mpr h2)]
  · rw [if_pos (by omega), if_pos h2]

/-- Witness for `currentRate_spec` at the concrete window [0, 1]. -/
theorem currentRate_spec_witness :
    currentRate [(0 : ℚ), 1] =
      (([(0 : ℚ), 1]).length : ℚ) / (([(0 : ℚ), 1]).getLastD 0 - ([(0 : ℚ), 1]).headD 0) :=
  (currentRate_spec [0, 1]).2.2 (by decide)
    (by show (0 : ℚ) < 1 - 0; norm_num)

/-- C10: every capture iteration appends the arrival timestamp to the rolling
rate window, evicting the oldest sample so that the window never exceeds 100
entries, and does so independently of whether the device read delivered a
frame. -/
theorem rate_window_always_appends (c : Camera) (inp : CaptureInput)
    (h : c.frame_dts.length ≤ 100) :
    (grab_frame c inp).frame_dts.getLast? = some inp.ts.secs ∧
    (grab_frame c inp).frame_dts.length ≤ 100 ∧
    (grab_frame c inp).frame_dts =
      (if c.frame_dts.length = 100 then c.frame_dts.tail else c.frame_dts) ++ [inp.ts.secs] ∧
    (grab_frame c { inp with flag := false }).frame_dts = (grab_frame c inp).frame_dts := by
  have hd : (grab_frame c inp).frame_dts =
      (if c.frame_dts.length = 100 then c.frame_dts.tail else c.frame_dts) ++ [inp.ts.secs] := by
    rw [grab_frame_frame_dts]
    unfold recordSample
    rcases Nat.lt_or_ge c.frame_dts.length 100 with hlt | hge
    · rw [if_neg (by simp; omega), if_neg (by omega)]
    · have h100 : c.frame_dts.length = 100 := le_antisymm h hge
      rw [if_pos (by simp; omega), if_pos h100]
      rcases hc : c.frame_dts with _ | ⟨x, xs⟩
      · rw [hc] at h100
        simp at h100
      · simp
  refine ⟨?_, ?_, hd, ?_⟩
  · rw [hd, List.getLast?_append]
    rfl
  · rw [hd]
    rcases Nat.lt_or_ge c.frame_dts.length 100 with hlt | hge
    · rw [if_neg (by omega)]
      simp
      omega
    · have h100 : c.frame_dts.length = 100 := le_antisymm h hge
      rw [if_pos h100]
      simp
      omega
  · rw [grab_frame_frame_dts, grab_frame_frame_dts]

/-- Witness for `rate_window_always_appends` at a concrete camera and input. -/
theorem rate_window_always_appends_witness :
    (grab_frame idleCam okInput).frame_dts.getLast? = some okInput.ts.secs ∧
    (grab_frame idleCam okInput).frame_dts.length ≤ 100 ∧
    (grab_frame idleCam okInput).frame_dts =
      (if idleCam.frame_dts.length = 100 then idleCam.frame_dts.tail
       else idleCam.frame_dts) ++ [okInput.ts.secs] ∧
    (grab_frame idleCam { okInput with flag := false }).frame_dts =
      (grab_frame idleCam okInput).frame_dts :=
  rate_window_always_appends idleCam okInput (by decide)

lemma grab_frame_dispframe_succ (c : Camera) (inp : CaptureInput) (hf : inp.flag = true) :
    (grab_frame c inp).dispframe =
      some (overlayAll c.remote c.width c.height inp
              (if inp.flag && inp.convOk then convFrame c.color c.height c.width inp.raw
               else c.empty_frame),
            inp.ts, currentRate (recordSample c.frame_dts inp.ts.secs)) := by
  by_cases hs : c.saving = true <;> simp [grab_frame, hf, hs]

lemma grab_frame_fail_effects (c : Camera) (inp : CaptureInput) (hf : inp.flag = false) :
    (grab_frame c inp).dispframe = c.dispframe ∧
    (grab_frame c inp).recframes = c.recframes ∧
    (grab_frame c inp).warnings = c.warnings ++ [grabWarnMsg] ∧
    (grab_frame c inp).continuous = c.continuous := by
  simp [grab_frame, hf]

lemma grab_frame_recframes_nosave (c : Camera) (inp : CaptureInput) (hs : c.saving = false) :
    (grab_frame c inp).recframes = c.recframes := by
  by_cases hf : inp.flag = false <;> simp [grab_frame, hf, hs]

lemma stop_capture_noop (c : Camera) (h : c.continuous = false) : stop_capture c = c := by
  cases c
  simp only [stop_capture]
  simp_all

/-- An idle camera whose capture loop flag is set. -/
def contCam : Camera := { idleCam with continuous := true }

/-- A second successful capture input, one second after `okInput`. -/
def okInput2 : CaptureInput :=
  { flag := true, convOk := true, raw := 8
  , ts := { secs := 1, ymdhms := "2020-01-01 00:00:01" }, speed := "0" }

/-- C7: for every capture iteration in which the device read reports failure,
the warning is emitted, the iteration publishes nothing to the display slot
and enqueues nothing to the record queue, and the capture loop proceeds with
the remaining iterations instead of terminating. -/
theorem failed_read_drops_frame (c : Camera) (inp : CaptureInput) (rest : List CaptureInput)
    (hf : inp.flag = false) (hc : c.continuous = true) :
    (grab_frame c inp).warnings = c.warnings ++ [grabWarnMsg] ∧
    (grab_frame c inp).dispframe = c.dispframe ∧
    (grab_frame c inp).recframes = c.recframes ∧
    (grab_frame c inp).continuous = true ∧
    capture_go c (inp :: rest) = capture_go (grab_frame c inp) rest := by
  obtain ⟨hd, hr, hw, hcont⟩ := grab_frame_fail_effects c inp hf
  refine ⟨hw, hd, hr, by rw [hcont, hc], ?_⟩
  simp [capture_go, hc]

/-- Witness for `failed_read_drops_frame` at a concrete camera and input. -/
theorem failed_read_drops_frame_witness :
    (grab_frame contCam failReadInput).warnings = contCam.warnings ++ [grabWarnMsg] ∧
    (grab_frame contCam failReadInput).dispframe = contCam.dispframe ∧
    (grab_frame contCam failReadInput).recframes = contCam.recframes ∧
    (grab_frame contCam failReadInput).continuous = true ∧
    capture_go contCam [failReadInput] = capture_go (grab_frame contCam failReadInput) [] :=
  failed_read_drops_frame contCam failReadInput [] rfl rfl

/-- C9: taking the display slot returns the most recently published
(frame, timestamp, rate) tuple (the one of the second publish, latest wins)
and leaves the slot empty, and a subsequent take with no intervening publish
returns the empty indication; the slot holds at most one unread value by
construction. -/
theorem dispslot_take_latest (c : Camera) (i1 i2 : CaptureInput)
    (hpub1 : i1.flag = true) (h2 : i2.flag = true) :
    ((get_dispframe (grab_frame (grab_frame c i1) i2)).1.map fun p => p.2.1) = some i2.ts ∧
    (get_dispframe (grab_frame (grab_frame c i1) i2)).2.dispframe = none ∧
    (get_dispframe (get_dispframe (grab_frame (grab_frame c i1) i2)).2).1 = none := by
  refine ⟨?_, rfl, rfl⟩
  have hd := grab_frame_dispframe_succ (grab_frame c i1) i2 h2
  simp [get_dispframe, hd]

/-- Witness for `dispslot_take_latest` at a concrete camera and two concrete
publishes. -/
theorem dispslot_take_latest_witness :
    ((get_dispframe (grab_frame (grab_frame idleCam okInput) okInput2)).1.map
        fun p => p.2.1) = some okInput2.ts ∧
    (get_dispframe (grab_frame (grab_frame idleCam okInput) okInput2)).2.dispframe = none ∧
    (get_dispframe
        (get_dispframe (grab_frame (grab_frame idleCam okInput) okInput2)).2).1 = none :=
  dispslot_take_latest idleCam okInput okInput2 rfl rfl

/-- C6: the code evaluated at the failing input of the claim.  Before any
successful conversion, a conversion failure in color mode substitutes a
single-channel fallback frame where the claim requires full-color RGB, and
in grayscale mode a three-channel fallback where the claim requires a single
channel: the channel reduction in `__init__` (lines 62-64) is applied under
`if self.color` instead of its negation.  After a successful conversion the
cached frame does match the configured mode. -/
theorem fallback_frame_wrong_channels :
    ((grab_frame colorCam failConvInput).dispframe.map fun p => p.1.channels) = some 1 ∧
    ((grab_frame grayCam failConvInput).dispframe.map fun p => p.1.channels) = some 3 ∧
    (grab_frame colorCam okInput).empty_frame.channels = 3 ∧
    (grab_frame grayCam okInput).empty_frame.channels = 1 := by
  refine ⟨rfl, rfl, rfl, rfl⟩

/-- C3 (counterexample): after a failed Recorder open from the idle state,
`self.recording` still holds the failed handle, so partial session state is
retained, contrary to the claim. -/
theorem new_recording_fail_retains_handle :
    (new_recording idleCam false 0).1.recording ≠ none := by
  simp [new_recording, idleCam, grayCam, Camera.init]

/-- C3 (amended): if opening the external Recorder fails at session start,
the error is reported via the error callback, the session does not start
saving (from a non-saving state no enqueues are accepted), no consumer
thread is started and the consumer signal is not connected, but the failed
Recorder handle remains assigned to `self.recording` rather than the session
being torn down completely. -/
theorem new_recording_fail_spec (c : Camera) (fra : ℚ) (hs : c.saving = false) :
    (new_recording c false fra).1.errors = c.errors ++ [recOpenErrMsg] ∧
    (new_recording c false fra).2 = false ∧
    (new_recording c false fra).1.saving = false ∧
    (new_recording c false fra).1.recordingThread = c.recordingThread ∧
    (new_recording c false fra).1.sig_connected = c.sig_connected ∧
    (∃ r, (new_recording c false fra).1.recording = some r ∧ r.opened = false) ∧
    (∀ inp, (grab_frame (new_recording c false fra).1 inp).recframes =
      (new_recording c false fra).1.recframes) := by
  have hfields :
      (new_recording c false fra).1.errors = c.errors ++ [recOpenErrMsg] ∧
      (new_recording c false fra).2 = false ∧
      (new_recording c false fra).1.saving = c.saving ∧
      (new_recording c false fra).1.recordingThread = c.recordingThread ∧
      (new_recording c false fra).1.sig_connected = c.sig_connected ∧
      (∃ r, (new_recording c false fra).1.recording = some r ∧ r.opened = false) := by
    by_cases ht : c.triggered = false
    · cases hdp : c.dispframe <;> simp [new_recording, ht, hdp]
    · simp [new_recording, ht]
  obtain ⟨he, hb, hsv, hth, hsg, hrec⟩ := hfields
  refine ⟨he, hb, hsv.trans hs, hth, hsg, hrec, fun inp => ?_⟩
  exact grab_frame_recframes_nosave _ inp (hsv.trans hs)

/-- Witness for `new_recording_fail_spec` at the concrete idle camera. -/
theorem new_recording_fail_spec_witness :
    (new_recording idleCam false 0).1.errors = idleCam.errors ++ [recOpenErrMsg] ∧
    (new_recording idleCam false 0).2 = false ∧
    (new_recording idleCam false 0).1.saving = false :=
  ⟨(new_recording_fail_spec idleCam 0 rfl).1,
   (new_recording_fail_spec idleCam 0 rfl).2.1,
   (new_recording_fail_spec idleCam 0 rfl).2.2.1⟩

lemma grab_frame_recframes_succ (c : Camera) (inp : CaptureInput)
    (hf : inp.flag = true) (hco : inp.convOk = true) (hs : c.saving = true) :
    (grab_frame c inp).recframes =
      c.recframes ++ [recEntry c.color c.remote c.width c.height inp] := by
  simp [grab_frame, recEntry, hf, hco, hs]

lemma capture_go_recframes : ∀ (inputs : List CaptureInput) (c : Camera),
    c.saving = true → c.continuous = true →
    (∀ i ∈ inputs, i.flag = true ∧ i.convOk = true) →
    (capture_go c inputs).recframes =
      c.recframes ++ inputs.map (recEntry c.color c.remote c.width c.height)
  | [], c, _, _, _ => by simp [capture_go]
  | inp :: rest, c, hs, hc, hok => by
    have hi := hok inp (List.mem_cons_self inp rest)
    have hconst := grab_frame_const c inp
    have hrec := grab_frame_recframes_succ c inp hi.1 hi.2 hs
    have ih := capture_go_recframes rest (grab_frame c inp)
      (hconst.2.2.2.2.1.trans hs) (hconst.2.2.2.2.2.1.trans hc)
      (fun i hi2 => hok i (List.mem_cons_of_mem _ hi2))
    rw [capture_go, if_pos hc, ih, hrec]
    rw [hconst.1, hconst.2.1, hconst.2.2.1, hconst.2.2.2.1]
    simp

lemma readAll_spec : ∀ (l : List (Frame × String)) (c : Camera), c.recframes = l →
    readAll l.length c = (l, { c with recframes := [] })
  | [], c, h => by
    cases c
    simp_all [readAll]
  | x :: xs, c, h => by
    have h1 : get_recframe c = (some x, { c with recframes := xs }) := by
      simp [get_recframe, h]
    have ih := readAll_spec xs { c with recframes := xs } rfl
    show readAll (xs.length + 1) c = _
    rw [readAll, h1]
    dsimp only
    rw [ih]

/-- C8: every sequence of successful captures while the session is saving is
enqueued in submission order, reading the record queue to completion yields
exactly those pairs in order with nothing reordered, duplicated or lost, and
a dequeue on the emptied queue returns the empty indication and leaves the
state unchanged. -/
theorem recqueue_fifo (c : Camera) (inputs : List CaptureInput)
    (hs : c.saving = true) (hc : c.continuous = true) (h0 : c.recframes = [])
    (hok : ∀ i ∈ inputs, i.flag = true ∧ i.convOk = true) :
    (capture_go c inputs).recframes =
      inputs.map (recEntry c.color c.remote c.width c.height) ∧
    (readAll inputs.length (capture_go c inputs)).1 =
      inputs.map (recEntry c.color c.remote c.width c.height) ∧
    (readAll inputs.length (capture_go c inputs)).2.recframes = [] ∧
    get_recframe (readAll inputs.length (capture_go c inputs)).2 =
      (none, (readAll inputs.length (capture_go c inputs)).2) := by
  have hr : (capture_go c inputs).recframes =
      inputs.map (recEntry c.color c.remote c.width c.height) := by
    rw [capture_go_recframes inputs c hs hc hok, h0]
    simp
  have hread := readAll_spec (inputs.map (recEntry c.color c.remote c.width c.height))
    (capture_go c inputs) hr
  rw [List.length_map] at hread
  refine ⟨hr, by rw [hread], by rw [hread], ?_⟩
  rw [hread]
  simp [get_recframe]

/-- An idle camera with both the saving and the capture flags set. -/
def savCam : Camera := { idleCam with saving := true, continuous := true }

/-- Witness for `recqueue_fifo` at a concrete camera and two captures. -/
theorem recqueue_fifo_witness :
    (capture_go savCam [okInput, okInput2]).recframes =
      [okInput, okInput2].map (recEntry savCam.color savCam.remote savCam.width savCam.height) ∧
    (readAll ([okInput, okInput2]).length (capture_go savCam [okInput, okInput2])).1 =
      [okInput, okInput2].map (recEntry savCam.color savCam.remote savCam.width savCam.height) ∧
    (readAll ([okInput, okInput2]).length (capture_go savCam [okInput, okInput2])).2.recframes
      = [] ∧
    get_recframe (readAll ([okInput, okInput2]).length (capture_go savCam [okInput, okInput2])).2
      = (none, (readAll ([okInput, okInput2]).length (capture_go savCam [okInput, okInput2])).2) :=
  recqueue_fifo savCam [okInput, okInput2] rfl rfl rfl (by decide)

lemma drainLoop_succ (depth wc : ℕ → ℕ) (last : ℕ) (fuel iters : ℕ) (dc : ℤ) :
    drainLoop depth wc last (fuel + 1) iters dc =
      if 0 < depth iters then
        (if (if last = wc iters then dc + 1 else dc) = 10 then some (iters + 1, true)
         else drainLoop depth wc last fuel (iters + 1)
                (if last = wc iters then dc + 1 else dc))
      else some (iters, false) := rfl

lemma drainLoop_stall (depth : ℕ → ℕ) (w : ℕ) (hd : ∀ i, i ≤ 10 → 0 < depth i) :
    ∀ m j fuel, j + m = 11 → 1 ≤ m → m ≤ fuel →
      drainLoop depth (fun _ => w) w fuel j ((j : ℤ) - 1) = some (11, true) := by
  intro m
  induction m with
  | zero => intro j fuel hj h1 hf; omega
  | succ m ih =>
    intro j fuel hj h1 hf
    cases fuel with
    | zero => omega
    | succ f =>
      rw [drainLoop_succ, if_pos (hd j (by omega)), if_pos rfl]
      by_cases hj10 : j = 10
      · subst hj10
        rw [if_pos (by norm_num)]
      · rw [if_neg (by omega)]
        have h2 := ih (j + 1) f (by omega) (by omega) (by omega)
        have hdc : ((j : ℤ)) - 1 + 1 = ((j + 1 : ℕ) : ℤ) - 1 := by push_cast; ring
        rw [hdc]
        exact h2

lemma drainLoop_noprogress (depth wcf : ℕ → ℕ) (last : ℕ)
    (hne : ∀ i, last ≠ wcf i) (hd : ∀ i, 0 < depth i) :
    ∀ fuel j, drainLoop depth wcf last fuel j (-1) = none
  | 0, _ => rfl
  | fuel + 1, j => by
    rw [drainLoop_succ, if_pos (hd j), if_neg (hne j), if_neg (by norm_num)]
    exact drainLoop_noprogress depth wcf last hne hd fuel (j + 1)

/-- C2 (counterexample): with the queue always non-empty and the consumer
never advancing the write count, the drain loop of stop_saving aborts only
after 11 polls (the stall counter starts at -1), not after the claimed 10
consecutive stalled polls. -/
theorem drain_stall_eleven_polls :
    drainLoop (fun _ => 1) (fun _ => 0) 0 20 0 (-1) = some (11, true) ∧
    drainLoop (fun _ => 1) (fun _ => 0) 0 20 0 (-1) ≠ some (10, true) := by
  constructor <;> decide

/-- C2 (amended): during the drain loop of stop(), the stall counter, which
starts at -1, is incremented exactly when the current write count equals the
single value captured before the loop began (it is never compared against
the previous poll and never reset to 0 on progress); if the consumer never
advances the write count from that value while the queue stays non-empty,
the drain aborts with the frames-cannot-be-saved error after exactly 11
polls, and if the write count advanced before the first poll and then stays
put, the counter never fires and the loop never terminates on its own. -/
theorem drain_counter_spec (depth : ℕ → ℕ) (w : ℕ) (hd : ∀ i, i ≤ 10 → 0 < depth i) :
    (∀ fuel, 11 ≤ fuel → drainLoop depth (fun _ => w) w fuel 0 (-1) = some (11, true)) ∧
    ((∀ i, 0 < depth i) → ∀ fuel, drainLoop depth (fun _ => w + 1) w fuel 0 (-1) = none) ∧
    (∀ s fuel, 11 ≤ fuel →
      (stop_saving activeCam
          { depth := depth, wc := fun _ => w, now := s, fuel := fuel }).pollsAborted
        = some (11, true) ∧
      (stop_saving activeCam
          { depth := depth, wc := fun _ => w, now := s, fuel := fuel }).errorsOf
        = ["Frames cannot be saved."]) := by
  have h1 : ∀ fuel, 11 ≤ fuel → drainLoop depth (fun _ => w) w fuel 0 (-1) = some (11, true) := by
    intro fuel hf
    have h := drainLoop_stall depth w hd 11 0 fuel (by omega) (by omega) hf
    simpa using h
  refine ⟨h1, ?_, ?_⟩
  · intro hdall fuel
    exact drainLoop_noprogress depth (fun _ => w + 1) w
      (fun i => by show w ≠ w + 1; omega) hdall fuel 0
  · intro s fuel hf
    have hdl := h1 fuel hf
    constructor <;>
      simp [stop_saving, activeCam, idleCam, grayCam, Camera.init, StopResult.pollsAborted,
            StopResult.errorsOf, hdl]

/-- Witness for `drain_counter_spec` at concrete depth and write-count
sequences. -/
theorem drain_counter_spec_witness :
    drainLoop (fun _ => 1) (fun _ => 0) 0 11 0 (-1) = some (11, true) ∧
    drainLoop (fun _ => 1) (fun _ => 1) 0 7 0 (-1) = none ∧
    (stop_saving activeCam
        { depth := fun _ => 1, wc := fun _ => 0, now := "t", fuel := 11 }).pollsAborted
      = some (11, true) := by
  have h := drain_counter_spec (fun _ => 1) 0 (fun i _ => Nat.one_pos)
  exact ⟨h.1 11 le_rfl, h.2.1 (fun i => Nat.one_pos) 7, (h.2.2 ("t") 11 le_rfl).1⟩

/-- C4 (counterexample): calling stop_saving when no recording session
exists (the idle state, recording = None) raises an AttributeError from
self.recording.write instead of being a no-op, contrary to the claim. -/
theorem stop_saving_idle_raises :
    stop_saving idleCam drainEnv0 = StopResult.exn attrErrMsg := rfl

/-- C4 (amended): stop of capture is idempotent: invoked when capture is
already halted it changes no state and raises no error; but stop of a
recording session is not: invoked when no session exists it raises an
AttributeError on self.recording.write instead of being a no-op. -/
theorem stop_idempotence_spec (c : Camera) (env : DrainEnv)
    (h1 : c.continuous = false) (h2 : c.recording = none) :
    stop_capture c = c ∧ stop_saving c env = StopResult.exn attrErrMsg := by
  refine ⟨stop_capture_noop c h1, ?_⟩
  simp [stop_saving, h2]

/-- Witness for `stop_idempotence_spec` at the concrete idle camera. -/
theorem stop_idempotence_spec_witness :
    stop_capture idleCam = idleCam ∧
    stop_saving idleCam drainEnv0 = StopResult.exn attrErrMsg :=
  stop_idempotence_spec idleCam drainEnv0 rfl rfl

/-- C5: the code evaluated at the scenario of the claim: five frames queued and
all of them written by the consumer within the first poll interval.  The
drain completes normally after one poll, but the emitted completion summary
reads 5 of 0 rather than the claimed 5 of 5, because the expected-frames
count is the hardcoded 0 of `triggered_frames` (marked TODO in the
source). -/
theorem drain_summary_five_of_zero :
    (stop_saving activeCam fiveFrameEnv).summaryOf =
      some ("2020-01-02  03:04:05" ++ " \t " ++ "All frames written: 5 of 0") ∧
    (stop_saving activeCam fiveFrameEnv).summaryOf ≠
      some ("2020-01-02  03:04:05" ++ " \t " ++ "All frames written: 5 of 5") ∧
    (stop_saving activeCam fiveFrameEnv).pollsAborted = some (1, false) := by
  refine ⟨by decide, by decide, by decide⟩
